import Mathlib

/-
  Verification of the weakai repository core: the rnntest BlockChecker
  (package rnntest, src/rnn/rnntest/block_checker.go) and the neuralnet
  ConvLayer (same file, second document).  Real-valued float64 data is
  embedded as rationals; the checker comparisons, which are sensitive to
  IEEE not-a-number values, use an explicit rational-or-NaN type.
-/

set_option maxHeartbeats 1000000

/- ===================================================================
   Package rnntest: BlockChecker (block_checker.go, first document)
   =================================================================== -/

namespace RT

/-- A float64 value as observed by the checker comparisons: either an
ordinary real number (embedded as a rational) or IEEE not-a-number. -/
inductive F64 where
  | nan : F64
  | val : ℚ → F64
deriving DecidableEq

/-- math.IsNaN. -/
def F64.IsNaN : F64 → Bool
  | .nan => true
  | .val _ => false

/-- Float64 subtraction x-y: NaN propagates through arithmetic. -/
def F64.sub : F64 → F64 → F64
  | .val a, .val b => .val (a - b)
  | _, _ => .nan

/-- math.Abs: NaN stays NaN. -/
def F64.Abs : F64 → F64
  | .nan => .nan
  | .val a => .val |a|

/-- The comparison x > prec: every IEEE comparison with NaN is false. -/
def F64.gtQ : F64 → ℚ → Bool
  | .nan, _ => false
  | .val a, p => decide (p < a)

/-- The loop body condition of BlockChecker.vecsEqual at one index:
math.IsNaN(x) != math.IsNaN(y) || math.Abs(x-y) > prec means the pair
is rejected. -/
def pairMismatch (prec : ℚ) (x y : F64) : Bool :=
  (x.IsNaN != y.IsNaN) || (x.sub y).Abs.gtQ prec

/-- The elementwise loop of BlockChecker.vecsEqual, after the precision
has been resolved (lines 144-150 of block_checker.go): false if the
lengths differ, otherwise no pair may be rejected. -/
def vecsEqualAt (prec : ℚ) (v1 v2 : List F64) : Bool :=
  (v1.length == v2.length) && (v1.zip v2).all fun p => !pairMismatch prec p.1 p.2

/-- Modelled from the spec: functest.DefaultPrec, the default comparison
tolerance of the external functest collaborator (its concrete value is
out of scope; only that it is the fallback when Prec is zero matters). -/
def defaultPrec : ℚ := 1 / 100000

/-- A tracked variable as the checker sees it: an identity handle and the
length of its value vector (autofunc.Variable identity is by reference,
modelled as an integer id per the spec design notes). -/
structure TVar where
  id : ℕ
  len : ℕ
deriving DecidableEq

/-- A Gradient / RGradient mapping: entries keyed by variable identity,
each holding an accumulator vector.  len(g) is the entry count. -/
def GradMap : Type := List (ℕ × List F64)

/-- autofunc.NewGradient / NewRGradient: one zero accumulator per tracked
variable, keyed by identity. -/
def newGradient (vars : List TVar) : GradMap :=
  vars.map fun v => (v.id, List.replicate v.len (F64.val 0))

/-- Entry count of a gradient mapping (len of the Go map). -/
def GradMap.entries (g : GradMap) : ℕ := List.length g

/-- Go map read g[v]: the accumulator of variable id, or a nil (empty)
vector when the key is absent. -/
def GradMap.getVec (g : GradMap) (id : ℕ) : List F64 :=
  ((List.find? (fun e => e.1 == id) g).map Prod.snd).getD []

/-- Modelled from the spec: the observable single-step behavior of an
rnn.Block (the rnn package is outside src/) at the first input of the
first sequence, as used by the nil-upstream subtests.  outputs is the
output list of ApplyBlock on the start state; propagate is the backward
closure of that application, taking the (possibly nil) upstream gradient
list together with the nil state-gradient list and returning the updated
Gradient mapping; propagateR is the dual backward closure, taking the
(possibly nil) upstream and R-upstream lists with the nil R-state
gradients and returning the updated RGradient and Gradient mappings. -/
structure BlockModel where
  outputs : List (List F64)
  propagate : Option (List (List F64)) → GradMap → GradMap
  propagateR : Option (List (List F64)) → Option (List (List F64)) →
    GradMap → GradMap → GradMap × GradMap

/-- A BlockChecker performs gradient checking and other edge-case checks
on a Block (fields B, Vars, Prec; the numeric finite-difference fields
Delta and RV only feed the external functest collaborator). -/
structure BlockChecker where
  B : BlockModel
  Vars : List TVar
  Prec : ℚ

/-- The precision used when comparing values: Prec, or the functest
default when Prec is zero. -/
def BlockChecker.prec (b : BlockChecker) : ℚ :=
  if b.Prec = 0 then defaultPrec else b.Prec

/-- BlockChecker.vecsEqual (lines 136-151). -/
def BlockChecker.vecsEqual (b : BlockChecker) (v1 v2 : List F64) : Bool :=
  vecsEqualAt b.prec v1 v2

/-- The explicit all-zero upstream built by the nil-upstream subtests:
one zero vector per output, of matching length. -/
def zeroUpstream (bm : BlockModel) : List (List F64) :=
  bm.outputs.map fun x => List.replicate x.length (F64.val 0)

/-- BlockChecker.testNilUpstream (lines 55-87): true iff the subtest
reports at least one test failure (t.Errorf call). -/
def BlockChecker.testNilUpstream (b : BlockChecker) : Bool :=
  let g1start := newGradient b.Vars
  let initLen1 := g1start.entries
  let g1 := b.B.propagate none g1start
  let g2start := newGradient b.Vars
  let initLen2 := g2start.entries
  let g2 := b.B.propagate (some (zeroUpstream b.B)) g2start
  (g1.entries != initLen1) || (g2.entries != initLen2) ||
    b.Vars.any fun v => !b.vecsEqual (g1.getVec v.id) (g2.getVec v.id)

/-- BlockChecker.testNilUpstreamR (lines 89-134): true iff the subtest
reports at least one test failure (t.Errorf call). -/
def BlockChecker.testNilUpstreamR (b : BlockChecker) : Bool :=
  let g1start := newGradient b.Vars
  let rg1start := newGradient b.Vars
  let initLen1 := g1start.entries
  let run1 := b.B.propagateR none none rg1start g1start
  let g2start := newGradient b.Vars
  let rg2start := newGradient b.Vars
  let initLen2 := g2start.entries
  let run2 := b.B.propagateR (some (zeroUpstream b.B)) (some (zeroUpstream b.B))
    rg2start g2start
  (run1.2.entries != initLen1) || (run1.1.entries != initLen1) ||
    (run2.2.entries != initLen2) || (run2.1.entries != initLen2) ||
    b.Vars.any fun v =>
      !b.vecsEqual (run1.2.getVec v.id) (run2.2.getVec v.id) ||
      !b.vecsEqual (run1.1.getVec v.id) (run2.1.getVec v.id)

/-- The two single-step nil-upstream subtests run by FullCheck (lines
51-52): true iff either subtest reports a failure. -/
def BlockChecker.nilUpstreamSubtests (b : BlockChecker) : Bool :=
  b.testNilUpstream || b.testNilUpstreamR

/-- The Gradient accumulator produced by propagating the all-nil upstream
in the plain subtest. -/
def BlockChecker.nilRun (b : BlockChecker) : GradMap :=
  b.B.propagate none (newGradient b.Vars)

/-- The Gradient accumulator produced by propagating the explicit
all-zero upstream in the plain subtest. -/
def BlockChecker.zeroRun (b : BlockChecker) : GradMap :=
  b.B.propagate (some (zeroUpstream b.B)) (newGradient b.Vars)

/-- The RGradient and Gradient accumulators produced by propagating the
all-nil upstreams in the dual subtest. -/
def BlockChecker.nilRunR (b : BlockChecker) : GradMap × GradMap :=
  b.B.propagateR none none (newGradient b.Vars) (newGradient b.Vars)

/-- The RGradient and Gradient accumulators produced by propagating the
explicit all-zero upstreams in the dual subtest. -/
def BlockChecker.zeroRunR (b : BlockChecker) : GradMap × GradMap :=
  b.B.propagateR (some (zeroUpstream b.B)) (some (zeroUpstream b.B))
    (newGradient b.Vars) (newGradient b.Vars)

end RT

/- ===================================================================
   Package neuralnet: ConvLayer (block_checker.go, second document)
   =================================================================== -/

namespace NN

/-- A dense real vector (linalg.Vector), embedded as a total function on
indices; only a prefix of interest of each vector is ever read. -/
abbrev Vec : Type := ℕ → ℚ

/-- The all-zero vector (a freshly made linalg.Vector). -/
def zeroVec : Vec := fun _ => 0

/-- blas64.Dot over the first n entries of the two vectors (the external
dense-vector primitive assumed correct by the spec). -/
def blas64Dot (n : ℕ) (a b : Vec) : ℚ :=
  ((List.range n).map fun i => a i * b i).sum

/-- blas64.Axpy over the first n entries: dest += s * src entrywise (the
external dense-vector primitive assumed correct by the spec). -/
def blas64Axpy (n : ℕ) (s : ℚ) (src dest : Vec) : Vec :=
  fun i => if i < n then dest i + s * src i else dest i

/-- Modelled from the spec: the repository's Tensor3 type is not under
src/.  A flat 3-D array (width x height x depth) whose backing vector is
addressed as index = depth*(y*width+x) + z (channel-minor flattening);
the backing length always equals width*height*depth, so the flat length
read by the dense-vector primitives is Size. -/
structure Tensor3 where
  Width : ℕ
  Height : ℕ
  Depth : ℕ
  Data : Vec

/-- Length of the backing vector of a Tensor3 (len(t.Data)). -/
def Tensor3.Size (t : Tensor3) : ℕ := t.Width * t.Height * t.Depth

/-- Flat index of position (x,y,z) in a Tensor3. -/
def Tensor3.idx (t : Tensor3) (x y z : ℕ) : ℕ :=
  t.Depth * (y * t.Width + x) + z

/-- Modelled from the spec: Tensor3.Get, the addressed read. -/
def Tensor3.Get (t : Tensor3) (x y z : ℕ) : ℚ := t.Data (t.idx x y z)

/-- Modelled from the spec: Tensor3.Set, the addressed write. -/
def Tensor3.Set (t : Tensor3) (x y z : ℕ) (v : ℚ) : Tensor3 :=
  { t with Data := Function.update t.Data (t.idx x y z) v }

/-- Modelled from the spec: NewTensor3 allocates a zero-filled tensor of
the given dimensions. -/
def NewTensor3 (w h d : ℕ) : Tensor3 := ⟨w, h, d, zeroVec⟩

/-- Modelled from the spec: Tensor3.Crop copies the rectangular,
depth-full sub-region with origin (ox,oy) and the destination's
width w and height h out of src; the caller guarantees the window lies
within bounds.  The destination entry at flat index i, decoded through
the destination's own layout, reads src at the offset position. -/
def Tensor3.Crop (src : Tensor3) (ox oy w h : ℕ) : Tensor3 :=
  { Width := w, Height := h, Depth := src.Depth,
    Data := fun i =>
      src.Get (ox + (i / src.Depth) % w) (oy + (i / src.Depth) / w)
        (i % src.Depth) }

/-- Modelled from the spec: Tensor3.MulAdd adds scalar*src into the
region of the receiver starting at offset (offX, offY); offsets may be
negative, and the written region is clipped to the overlap of the
receiver with the shifted source. -/
def Tensor3.MulAdd (t : Tensor3) (offX offY : ℤ) (src : Tensor3) (s : ℚ) : Tensor3 :=
  { t with Data := fun i =>
      let z := i % t.Depth
      let x := (i / t.Depth) % t.Width
      let y := (i / t.Depth) / t.Width
      if y < t.Height ∧ offX ≤ (x : ℤ) ∧ (x : ℤ) < offX + src.Width ∧
          offY ≤ (y : ℤ) ∧ (y : ℤ) < offY + src.Height then
        t.Data i + s * src.Get ((x : ℤ) - offX).toNat ((y : ℤ) - offY).toNat z
      else t.Data i }

/-- autofunc.Variable: a graph leaf holding a value vector; identity is
by reference, modelled as an integer id handle (spec design notes). -/
structure Variable where
  id : ℕ
  Vector : Vec

/-- autofunc.RVector: the perturbation-direction mapping, keyed by
variable identity; an absent entry means a zero direction. -/
def RVector : Type := ℕ → Option Vec

/-- autofunc.Gradient / RGradient: accumulator vectors keyed by variable
identity; a variable absent from the mapping is untracked (a nil Go map
reads as the empty mapping). -/
def Grad : Type := ℕ → Option Vec

/-- Update the entry of variable v if it is tracked; a silent no-op when
the key is absent.  This is the only way any propagation step touches a
Gradient/RGradient mapping: pure accumulation into an existing entry. -/
def Grad.update (g : Grad) (v : ℕ) (f : Vec → Vec) : Grad :=
  fun w => if w = v then (g v).map f else g w

/-- ConvLayer (struct fields as in the source; FilterVars, Filters and
Biases are nil until allocation, modelled as Option). -/
structure ConvLayer where
  FilterCount : ℤ
  FilterWidth : ℤ
  FilterHeight : ℤ
  Stride : ℤ
  InputWidth : ℤ
  InputHeight : ℤ
  InputDepth : ℤ
  Filters : Option (List Tensor3)
  FilterVars : Option (List Variable)
  Biases : Option Variable

/-- OutputWidth computes the width of the output tensor
(w := 1 + (InputWidth-FilterWidth)/Stride, clamped below at 0; Go
integer division truncates toward zero, which is Int.tdiv). -/
def ConvLayer.OutputWidth (c : ConvLayer) : ℤ :=
  let w := 1 + Int.tdiv (c.InputWidth - c.FilterWidth) c.Stride
  if w < 0 then 0 else w

/-- OutputHeight computes the height of the output tensor. -/
def ConvLayer.OutputHeight (c : ConvLayer) : ℤ :=
  let h := 1 + Int.tdiv (c.InputHeight - c.FilterHeight) c.Stride
  if h < 0 then 0 else h

/-- OutputDepth returns the depth of the output tensor. -/
def ConvLayer.OutputDepth (c : ConvLayer) : ℤ := c.FilterCount

/-- The shape law the spec states for the output width: with W the input
width, Fw the filter width and S the stride, max(0, 1+floor((W-Fw)/S));
floor division on integers is Int.fdiv. -/
def specOutputWidth (c : ConvLayer) : ℤ :=
  max 0 (1 + Int.fdiv (c.InputWidth - c.FilterWidth) c.Stride)

/-- The spec's shape law for the output height. -/
def specOutputHeight (c : ConvLayer) : ℤ :=
  max 0 (1 + Int.fdiv (c.InputHeight - c.FilterHeight) c.Stride)

/-- The filter list once allocated (nil reads as empty for iteration). -/
def ConvLayer.filtersL (c : ConvLayer) : List Tensor3 := c.Filters.getD []

/-- The filter variables once allocated (nil reads as empty). -/
def ConvLayer.filterVarsL (c : ConvLayer) : List Variable := c.FilterVars.getD []

/-- The identity handles of the filter variables, in order. -/
def ConvLayer.filterVarIds (c : ConvLayer) : List ℕ :=
  c.filterVarsL.map Variable.id

/-- The identity handle of the bias variable (meaningful once Biases is
allocated; only guarded code paths read it). -/
def ConvLayer.biasId (c : ConvLayer) : ℕ := ((c.Biases).map Variable.id).getD 0

/-- c.Biases.Vector (meaningful once Biases is allocated). -/
def ConvLayer.biasVec (c : ConvLayer) : Vec :=
  ((c.Biases).map Variable.Vector).getD zeroVec

/-- The stride as a natural loop increment (Stride is positive on every
valid layer; inputX = x*Stride is then x*strideN). -/
def ConvLayer.strideN (c : ConvLayer) : ℕ := c.Stride.toNat

/-- ConvLayer.inputToTensor: view a vector as an input-shaped tensor. -/
def ConvLayer.inputToTensor (c : ConvLayer) (inp : Vec) : Tensor3 :=
  ⟨c.InputWidth.toNat, c.InputHeight.toNat, c.InputDepth.toNat, inp⟩

/-- ConvLayer.outputToTensor: view a vector as an output-shaped tensor. -/
def ConvLayer.outputToTensor (c : ConvLayer) (out : Vec) : Tensor3 :=
  ⟨c.OutputWidth.toNat, c.OutputHeight.toNat, c.OutputDepth.toNat, out⟩

/-- ConvLayer.filterToTensor: view a vector as a filter-shaped tensor. -/
def ConvLayer.filterToTensor (c : ConvLayer) (filter : Vec) : Tensor3 :=
  ⟨c.FilterWidth.toNat, c.FilterHeight.toNat, c.InputDepth.toNat, filter⟩

/-- ConvLayer.convolve (lines 288-314): for every output position crop
the input at (x*Stride, y*Stride) to filter size and write, for every
filter z, the dot product of the cropped patch with filter z plus the
bias, at output position (x,y,z). -/
def ConvLayer.convolve (c : ConvLayer) (input : Vec) : Tensor3 :=
  let inTensor := c.inputToTensor input
  let outInit := NewTensor3 c.OutputWidth.toNat c.OutputHeight.toNat c.OutputDepth.toNat
  (List.range outInit.Height).foldl (fun outT1 y =>
    (List.range outInit.Width).foldl (fun outT2 x =>
      let croppedInput := inTensor.Crop (x * c.strideN) (y * c.strideN)
        c.FilterWidth.toNat c.FilterHeight.toNat
      (List.range c.filtersL.length).foldl (fun outT3 z =>
        let filter := c.filtersL.getD z (NewTensor3 0 0 0)
        let dot := blas64Dot filter.Size filter.Data croppedInput.Data
        outT3.Set x y z (dot + c.biasVec z)) outT2) outT1) outInit

/-- ConvLayer.filtersR (lines 386-397): per filter variable, the
direction vector from the RVector viewed as a filter tensor, or nil when
the variable has no direction. -/
def ConvLayer.filtersR (c : ConvLayer) (v : RVector) : List (Option Tensor3) :=
  c.filterVarsL.map fun filterVar => (v filterVar.id).map c.filterToTensor

/-- ConvLayer.convolveR (lines 316-362): the forward-mode dual of
convolve; at each output position and filter, dot(filter, croppedR) plus
dot(filterR, cropped) when filter z has a direction, plus biasR[z] when
the bias has a direction. -/
def ConvLayer.convolveR (c : ConvLayer) (v : RVector) (input inputR : Vec) : Tensor3 :=
  let inTensor := c.inputToTensor input
  let inTensorR := c.inputToTensor inputR
  let outInit := NewTensor3 c.OutputWidth.toNat c.OutputHeight.toNat c.OutputDepth.toNat
  let fR := c.filtersR v
  let biasR := v c.biasId
  (List.range outInit.Height).foldl (fun outT1 y =>
    (List.range outInit.Width).foldl (fun outT2 x =>
      let croppedInput := inTensor.Crop (x * c.strideN) (y * c.strideN)
        c.FilterWidth.toNat c.FilterHeight.toNat
      let croppedInputR := inTensorR.Crop (x * c.strideN) (y * c.strideN)
        c.FilterWidth.toNat c.FilterHeight.toNat
      (List.range c.filtersL.length).foldl (fun outT3 z =>
        let filter := c.filtersL.getD z (NewTensor3 0 0 0)
        let conv1 := blas64Dot filter.Size filter.Data croppedInputR.Data
        let conv2 := match fR.getD z none with
          | none => conv1
          | some rfilter => conv1 + blas64Dot rfilter.Size rfilter.Data croppedInput.Data
        let conv3 := match biasR with
          | none => conv2
          | some br => conv2 + br z
        outT3.Set x y z conv3) outT2) outT1) outInit

/-- ConvLayer.gradsFromMap (lines 364-384): fetch the bias accumulator
and, per filter variable in order, its accumulator viewed as a filter
tensor; absent keys give nil entries. -/
def ConvLayer.gradsFromMap (c : ConvLayer) (m : Grad) :
    Option Vec × List (Option Tensor3) :=
  (m c.biasId, c.filterVarIds.map fun v => (m v).map c.filterToTensor)

/-- ConvLayer.Parameters (lines 242-250): bias variable followed by the
filter variables in stored order; none models the uninitialized-use
panic. -/
def ConvLayer.Parameters (c : ConvLayer) : Option (List Variable) :=
  if c.Filters.isNone ∨ c.Biases.isNone ∨ c.FilterVars.isNone then none
  else some (c.Biases.getD ⟨0, zeroVec⟩ :: c.filterVarsL)

/-- convLayerResult: the Result node of Apply.  Its input node is the
graph leaf that fed the layer: a Variable with identity inputVarId whose
forward output is inputOut (autofunc is specified at its interface
boundary; a leaf Variable is its canonical Result). -/
structure convLayerResult where
  OutputTensor : Tensor3
  inputVarId : ℕ
  inputOut : Vec
  Layer : ConvLayer

/-- convLayerResult.Output. -/
def convLayerResult.Output (r : convLayerResult) : Vec := r.OutputTensor.Data

/-- convLayerRResult: the RResult node of ApplyR, with the dual output
tensor and the perturbation directions it was built under. -/
structure convLayerRResult where
  OutputTensor : Tensor3
  ROutputTensor : Tensor3
  inputVarId : ℕ
  inputOut : Vec
  inputROut : Vec
  Layer : ConvLayer
  RV : RVector

/-- convLayerRResult.Output. -/
def convLayerRResult.Output (r : convLayerRResult) : Vec := r.OutputTensor.Data

/-- convLayerRResult.ROutput. -/
def convLayerRResult.ROutput (r : convLayerRResult) : Vec := r.ROutputTensor.Data

/-- ConvLayer.Apply (lines 255-264): none models the uninitialized-use
panic; otherwise the convolved result node. -/
def ConvLayer.Apply (c : ConvLayer) (inId : ℕ) (inOut : Vec) :
    Option convLayerResult :=
  if c.Filters.isNone ∨ c.Biases.isNone ∨ c.FilterVars.isNone then none
  else some { OutputTensor := c.convolve inOut, inputVarId := inId,
              inputOut := inOut, Layer := c }

/-- ConvLayer.ApplyR (lines 267-278): none models the uninitialized-use
panic; otherwise the result node carrying both convolutions. -/
def ConvLayer.ApplyR (c : ConvLayer) (v : RVector) (inId : ℕ)
    (inOut inROut : Vec) : Option convLayerRResult :=
  if c.Filters.isNone ∨ c.Biases.isNone ∨ c.FilterVars.isNone then none
  else some { OutputTensor := c.convolve inOut,
              ROutputTensor := c.convolveR v inOut inROut,
              inputVarId := inId, inputOut := inOut, inputROut := inROut,
              Layer := c, RV := v }

/-- DeserializeConvLayer (lines 180-192), after a successful JSON
unmarshal produced the struct c (FilterVars carries a json:"-" tag, so
unmarshalling leaves it nil): every persisted filter is wrapped, in
order, in a freshly allocated Variable sharing the filter's backing
data; freshIds supplies the identity handles of the fresh allocations.
Appending nothing to a nil Go slice leaves it nil. -/
def DeserializeConvLayer (c : ConvLayer) (freshIds : ℕ → ℕ) : ConvLayer :=
  let fs := c.filtersL
  if fs.isEmpty then c
  else { c with FilterVars := some ((c.FilterVars.getD []) ++
    (fs.enum.map fun p => ⟨freshIds p.1, p.2.Data⟩)) }

/-- The filter-gradient accumulation site of
convLayerRResult.PropagateRGradient (line 586):
filterGrad.MulAdd(-inputX, -inputY, inputTensor, s). -/
def rFilterGradStep (fg : Tensor3) (inputX inputY : ℕ) (inT : Tensor3)
    (s : ℚ) : Tensor3 :=
  fg.MulAdd (-(inputX : ℤ)) (-(inputY : ℤ)) inT s

/-- The filter-gradient accumulation site of
convLayerResult.PropagateGradient (lines 483-492):
blas64.Axpy(len(filterGrad.Data), s, croppedInput, filterGrad). -/
def pFilterGradStep (fg : Tensor3) (croppedInput : Tensor3) (s : ℚ) : Tensor3 :=
  { fg with Data := blas64Axpy fg.Size s croppedInput.Data fg.Data }

/-- convLayerResult.PropagateGradient (lines 451-518).  The filter and
bias accumulations run over every output position; the input gradient,
built only when the input is not constant under grad, is scattered per
position from a temporary patch and finally propagated into the input
leaf variable (autofunc.Variable.PropagateGradient adds the upstream
into the variable's accumulator when it is tracked). -/
def convLayerResult.PropagateGradient (r : convLayerResult) (upstream : Vec)
    (grad : Grad) : Grad :=
  let c := r.Layer
  let inputTensor := c.inputToTensor r.inputOut
  let downstreamTensor := c.outputToTensor upstream
  let inputConstant := (grad r.inputVarId).isNone
  let grad1 := (List.range r.OutputTensor.Height).foldl (fun g1 y =>
    (List.range r.OutputTensor.Width).foldl (fun g2 x =>
      let croppedInput := inputTensor.Crop (x * c.strideN) (y * c.strideN)
        c.FilterWidth.toNat c.FilterHeight.toNat
      (List.range c.filtersL.length).foldl (fun g3 z =>
        let downVal := downstreamTensor.Get x y z
        let g4 := g3.update (c.filterVarIds.getD z 0) fun fgv =>
          (pFilterGradStep (c.filterToTensor fgv) croppedInput downVal).Data
        g4.update c.biasId fun bg =>
          Function.update bg z (bg z + downVal)) g2) g1) grad
  if inputConstant then grad1
  else
    let inputGrad := (List.range r.OutputTensor.Height).foldl (fun t1 y =>
      (List.range r.OutputTensor.Width).foldl (fun t2 x =>
        let tempInputGrad := (List.range c.filtersL.length).foldl (fun tp z =>
          let filter := c.filtersL.getD z (NewTensor3 0 0 0)
          let newData := blas64Axpy tp.Size (downstreamTensor.Get x y z) filter.Data tp.Data
          { tp with Data := newData })
          (NewTensor3 c.FilterWidth.toNat c.FilterHeight.toNat c.InputDepth.toNat)
        t2.MulAdd (x * c.strideN : ℕ) (y * c.strideN : ℕ) tempInputGrad 1) t1)
      (NewTensor3 c.InputWidth.toNat c.InputHeight.toNat c.InputDepth.toNat)
    grad1.update r.inputVarId fun v => fun i => v i + inputGrad.Data i

/-- The per-site gradient accumulation of
convLayerRResult.PropagateRGradient (loop body, lines 582-597): at
output position (x,y) and filter z, the filter gradient accumulates via
negative-offset MulAdd against the full input tensor, the filter
R-gradient via the two product-rule MulAdds against the input and
R-input tensors, and the bias and bias-R gradients entrywise. -/
def convLayerRResult.stepSite (r : convLayerRResult) (upstream upstreamR : Vec)
    (p : Grad × Grad) (x y z : ℕ) : Grad × Grad :=
  let c := r.Layer
  let inputTensor := c.inputToTensor r.inputOut
  let inputTensorR := c.inputToTensor r.inputROut
  let downVal := (c.outputToTensor upstream).Get x y z
  let downValR := (c.outputToTensor upstreamR).Get x y z
  let rg1 := p.1.update (c.filterVarIds.getD z 0) fun fgv =>
    (rFilterGradStep (rFilterGradStep (c.filterToTensor fgv)
        (x * c.strideN) (y * c.strideN) inputTensor downValR)
      (x * c.strideN) (y * c.strideN) inputTensorR downVal).Data
  let g1 := p.2.update (c.filterVarIds.getD z 0) fun fgv =>
    (rFilterGradStep (c.filterToTensor fgv)
      (x * c.strideN) (y * c.strideN) inputTensor downVal).Data
  let g2 := g1.update c.biasId fun bg => Function.update bg z (bg z + downVal)
  let rg2 := rg1.update c.biasId fun bg => Function.update bg z (bg z + downValR)
  (rg2, g2)

/-- The full (y,x,z) sweep of the dual backward pass over both gradient
mappings (lines 578-607, gradient part). -/
def convLayerRResult.accumGrads (r : convLayerRResult) (upstream upstreamR : Vec)
    (p0 : Grad × Grad) : Grad × Grad :=
  (List.range r.OutputTensor.Height).foldl (fun p1 y =>
    (List.range r.OutputTensor.Width).foldl (fun p2 x =>
      (List.range r.Layer.filtersL.length).foldl (fun p3 z =>
        r.stepSite upstream upstreamR p3 x y z) p2) p1) p0

/-- convLayerRResult.PropagateRGradient (lines 558-611): the dual
backward pass; the (y,x,z) sweep accumulates the filter, filter-R, bias
and bias-R gradients, and when the input is not constant the input
gradients scatter weighted filters (with the product-rule cross term
through filtersR) and are propagated into the input leaf variable. -/
def convLayerRResult.PropagateRGradient (r : convLayerRResult)
    (upstream upstreamR : Vec) (rgrad grad : Grad) : Grad × Grad :=
  let c := r.Layer
  let downstreamTensor := c.outputToTensor upstream
  let downstreamTensorR := c.outputToTensor upstreamR
  let inputConstant := (grad r.inputVarId).isNone && (rgrad r.inputVarId).isNone
  let filtersR := c.filtersR r.RV
  let maps1 := r.accumGrads upstream upstreamR (rgrad, grad)
  if inputConstant then maps1
  else
    let scatter := fun (dT : Tensor3) (useR : Bool) =>
      (List.range r.OutputTensor.Height).foldl (fun t1 y =>
        (List.range r.OutputTensor.Width).foldl (fun t2 x =>
          (List.range c.filtersL.length).foldl (fun t3 z =>
            let filter := c.filtersL.getD z (NewTensor3 0 0 0)
            let t4 := t3.MulAdd (x * c.strideN : ℕ) (y * c.strideN : ℕ) filter
              (dT.Get x y z)
            if useR then
              match filtersR.getD z none with
              | none => t4
              | some rfilter => t4.MulAdd (x * c.strideN : ℕ) (y * c.strideN : ℕ)
                  rfilter (downstreamTensor.Get x y z)
            else t4) t2) t1)
        (NewTensor3 c.InputWidth.toNat c.InputHeight.toNat c.InputDepth.toNat)
    let inputGrad := scatter downstreamTensor false
    let inputGradR := scatter downstreamTensorR true
    let maps2 := (maps1.1.update r.inputVarId fun v => fun i => v i + inputGradR.Data i,
      maps1.2.update r.inputVarId fun v => fun i => v i + inputGrad.Data i)
    maps2

/- Concrete layers used to instantiate the results below. -/

/-- A layer exercising the shape-law corner 0 < FilterWidth - InputWidth
< Stride: InputWidth 3, FilterWidth 4, Stride 2. -/
def cexLayer : ConvLayer :=
  { FilterCount := 1, FilterWidth := 4, FilterHeight := 4, Stride := 2,
    InputWidth := 3, InputHeight := 3, InputDepth := 1,
    Filters := none, FilterVars := none, Biases := none }

/-- The spec's first shape example: W=5, Fw=3, S=1. -/
def exLayerA : ConvLayer :=
  { FilterCount := 1, FilterWidth := 3, FilterHeight := 3, Stride := 1,
    InputWidth := 5, InputHeight := 5, InputDepth := 1,
    Filters := none, FilterVars := none, Biases := none }

/-- The spec's second shape example: W=2, Fw=3, S=1. -/
def exLayerB : ConvLayer :=
  { FilterCount := 1, FilterWidth := 3, FilterHeight := 3, Stride := 1,
    InputWidth := 2, InputHeight := 2, InputDepth := 1,
    Filters := none, FilterVars := none, Biases := none }

/-- A fully initialized 1-filter layer over a 2x2x1 input with a 1x1x1
filter of weight 2 and bias 3. -/
def exLayerC : ConvLayer :=
  { FilterCount := 1, FilterWidth := 1, FilterHeight := 1, Stride := 1,
    InputWidth := 2, InputHeight := 2, InputDepth := 1,
    Filters := some [⟨1, 1, 1, fun _ => 2⟩],
    FilterVars := some [⟨1, fun _ => 2⟩],
    Biases := some ⟨0, fun _ => 3⟩ }

/-- The same layer as freshly unmarshalled from JSON: FilterVars is nil
because of its json exclusion tag. -/
def exLayerD : ConvLayer :=
  { exLayerC with FilterVars := none }

/-- A concrete perturbation-direction mapping: direction 5 for the bias
variable (id 0) and direction 7 for the filter variable (id 1). -/
def exRV : RVector :=
  fun i => if i = 0 then some (fun _ => 5) else
    if i = 1 then some (fun _ => 7) else none

end NN

/- ===================================================================
   Helper lemmas
   =================================================================== -/

namespace NN

theorem Tensor3.idx_mod {t : Tensor3} (x y z : ℕ) (hz : z < t.Depth) :
    t.idx x y z % t.Depth = z := by
  unfold Tensor3.idx
  rw [Nat.mul_add_mod, Nat.mod_eq_of_lt hz]

theorem Tensor3.idx_div {t : Tensor3} (x y z : ℕ) (hz : z < t.Depth) :
    t.idx x y z / t.Depth = y * t.Width + x := by
  unfold Tensor3.idx
  rw [Nat.mul_add_div (Nat.lt_of_le_of_lt (Nat.zero_le z) hz),
    Nat.div_eq_of_lt hz, Nat.add_zero]

theorem Tensor3.idx_div_mod {t : Tensor3} (x y z : ℕ) (hx : x < t.Width)
    (hz : z < t.Depth) : (t.idx x y z / t.Depth) % t.Width = x := by
  rw [Tensor3.idx_div x y z hz, Nat.mul_comm, Nat.mul_add_mod,
    Nat.mod_eq_of_lt hx]

theorem Tensor3.idx_div_div {t : Tensor3} (x y z : ℕ) (hx : x < t.Width)
    (hz : z < t.Depth) : t.idx x y z / t.Depth / t.Width = y := by
  rw [Tensor3.idx_div x y z hz, Nat.mul_comm,
    Nat.mul_add_div (Nat.lt_of_le_of_lt (Nat.zero_le x) hx),
    Nat.div_eq_of_lt hx, Nat.add_zero]

theorem Tensor3.idx_inj {t : Tensor3} {x y z x' y' z' : ℕ}
    (hx : x < t.Width) (hz : z < t.Depth) (hx' : x' < t.Width)
    (hz' : z' < t.Depth) (h : t.idx x y z = t.idx x' y' z') :
    x = x' ∧ y = y' ∧ z = z' := by
  refine ⟨?_, ?_, ?_⟩
  · rw [← Tensor3.idx_div_mod x y z hx hz, h, Tensor3.idx_div_mod x' y' z' hx' hz']
  · rw [← Tensor3.idx_div_div x y z hx hz, h, Tensor3.idx_div_div x' y' z' hx' hz']
  · rw [← Tensor3.idx_mod x y z hz, h, Tensor3.idx_mod x' y' z' hz']

theorem Tensor3.Get_Set_same (t : Tensor3) (x y z : ℕ) (v : ℚ) :
    (t.Set x y z v).Get x y z = v := by
  unfold Tensor3.Get Tensor3.Set
  exact Function.update_same _ _ _

theorem Tensor3.Get_Set_of_idx_ne (t : Tensor3) {x y z x' y' z' : ℕ} (v : ℚ)
    (h : t.idx x y z ≠ t.idx x' y' z') :
    (t.Set x' y' z' v).Get x y z = t.Get x y z := by
  unfold Tensor3.Get Tensor3.Set
  exact Function.update_noteq h _ _

theorem Tensor3.Get_Set_of_ne (t : Tensor3) {x y z x' y' z' : ℕ} (v : ℚ)
    (hx : x < t.Width) (hz : z < t.Depth) (hx' : x' < t.Width)
    (hz' : z' < t.Depth) (hne : ¬(x = x' ∧ y = y' ∧ z = z')) :
    (t.Set x' y' z' v).Get x y z = t.Get x y z := by
  refine Tensor3.Get_Set_of_idx_ne t v fun h => hne ?_
  exact Tensor3.idx_inj hx hz hx' hz' h

theorem foldlRange_inv {α : Type _} (f : α → ℕ → α) (I : α → Prop)
    (hI : ∀ t k, I t → I (f t k)) :
    ∀ (n : ℕ) (t0 : α), I t0 → I ((List.range n).foldl f t0) := by
  intro n
  induction n with
  | zero => intro t0 h; simpa using h
  | succ m ih =>
    intro t0 h
    rw [List.range_succ, List.foldl_append]
    exact hI _ m (ih t0 h)

theorem foldlRange_keep {α β : Type _} (f : α → ℕ → α) (I : α → Prop) (P : α → β)
    (hI : ∀ t k, I t → I (f t k)) :
    ∀ (n : ℕ), (∀ t k, k < n → I t → P (f t k) = P t) →
      ∀ (t0 : α), I t0 → P ((List.range n).foldl f t0) = P t0 := by
  intro n
  induction n with
  | zero => intro _ t0 _; simp
  | succ m ih =>
    intro hs t0 h0
    rw [List.range_succ, List.foldl_append]
    have hIm : I ((List.range m).foldl f t0) := foldlRange_inv f I hI m t0 h0
    rw [show List.foldl f ((List.range m).foldl f t0) [m]
        = f ((List.range m).foldl f t0) m from rfl]
    rw [hs _ m (Nat.lt_succ_self m) hIm]
    exact ih (fun t k hk ht => hs t k (Nat.lt_succ_of_lt hk) ht) t0 h0

theorem foldlRange_write {α β : Type _} (f : α → ℕ → α) (I : α → Prop) (P : α → β)
    (v : β) (hI : ∀ t k, I t → I (f t k)) :
    ∀ (n : ℕ) (k0 : ℕ), k0 < n → (∀ t, I t → P (f t k0) = v) →
      (∀ t k, k < n → k ≠ k0 → I t → P (f t k) = P t) →
      ∀ (t0 : α), I t0 → P ((List.range n).foldl f t0) = v := by
  intro n
  induction n with
  | zero => intro k0 hk; omega
  | succ m ih =>
    intro k0 hk hw hs t0 h0
    rw [List.range_succ, List.foldl_append]
    have hIm : I ((List.range m).foldl f t0) := foldlRange_inv f I hI m t0 h0
    rw [show List.foldl f ((List.range m).foldl f t0) [m]
        = f ((List.range m).foldl f t0) m from rfl]
    rcases Nat.eq_or_lt_of_le (Nat.le_of_lt_succ hk) with heq | hlt
    · subst heq; exact hw _ hIm
    · rw [hs _ m (Nat.lt_succ_self m) (by omega) hIm]
      exact ih k0 hlt hw (fun t k hkm hne ht => hs t k (Nat.lt_succ_of_lt hkm) hne ht) t0 h0

/-- Preservation of a property of gradient maps along a range fold. -/
theorem foldlRange_pres {α : Type _} (f : α → ℕ → α) (P : α → Prop)
    (hs : ∀ t k, P t → P (f t k)) :
    ∀ (n : ℕ) (t0 : α), P t0 → P ((List.range n).foldl f t0) :=
  foldlRange_inv f P hs

end NN

namespace NN

theorem foldl3_Set_dims (Wn Hn Nn : ℕ) (val : ℕ → ℕ → ℕ → ℚ) (t0 : Tensor3) :
    ((List.range Hn).foldl (fun t1 y => (List.range Wn).foldl (fun t2 x =>
        (List.range Nn).foldl (fun t3 z => t3.Set x y z (val x y z)) t2) t1)
      t0).Width = t0.Width
  ∧ ((List.range Hn).foldl (fun t1 y => (List.range Wn).foldl (fun t2 x =>
        (List.range Nn).foldl (fun t3 z => t3.Set x y z (val x y z)) t2) t1)
      t0).Height = t0.Height
  ∧ ((List.range Hn).foldl (fun t1 y => (List.range Wn).foldl (fun t2 x =>
        (List.range Nn).foldl (fun t3 z => t3.Set x y z (val x y z)) t2) t1)
      t0).Depth = t0.Depth := by
  refine foldlRange_inv
    (fun t1 y => (List.range Wn).foldl (fun t2 x =>
      (List.range Nn).foldl (fun t3 z => t3.Set x y z (val x y z)) t2) t1)
    (fun t => t.Width = t0.Width ∧ t.Height = t0.Height ∧ t.Depth = t0.Depth)
    ?_ Hn t0 ⟨rfl, rfl, rfl⟩
  intro t y ht
  refine foldlRange_inv
    (fun t2 x => (List.range Nn).foldl (fun t3 z => t3.Set x y z (val x y z)) t2)
    (fun t => t.Width = t0.Width ∧ t.Height = t0.Height ∧ t.Depth = t0.Depth)
    ?_ Wn t ht
  intro t2 x ht2
  exact foldlRange_inv
    (fun t3 z => t3.Set x y z (val x y z))
    (fun t => t.Width = t0.Width ∧ t.Height = t0.Height ∧ t.Depth = t0.Depth)
    (fun t3 z ht3 => ht3) Nn t2 ht2

theorem foldl3_Set_Get (Wn Hn Nn : ℕ) (val : ℕ → ℕ → ℕ → ℚ) (t0 : Tensor3)
    (hWle : Wn ≤ t0.Width) (hNle : Nn ≤ t0.Depth)
    {x0 y0 z0 : ℕ} (hx : x0 < Wn) (hy : y0 < Hn) (hz : z0 < Nn) :
    ((List.range Hn).foldl (fun t1 y => (List.range Wn).foldl (fun t2 x =>
        (List.range Nn).foldl (fun t3 z => t3.Set x y z (val x y z)) t2) t1)
      t0).Get x0 y0 z0 = val x0 y0 z0 := by
  have hIz : ∀ (x y : ℕ) (t : Tensor3) (k : ℕ),
      (t.Width = t0.Width ∧ t.Depth = t0.Depth) →
      ((t.Set x y k (val x y k)).Width = t0.Width ∧
        (t.Set x y k (val x y k)).Depth = t0.Depth) :=
    fun _ _ _ _ ht => ht
  have hIx : ∀ (y : ℕ) (t : Tensor3) (k : ℕ),
      (t.Width = t0.Width ∧ t.Depth = t0.Depth) →
      (((List.range Nn).foldl (fun t3 z => t3.Set k y z (val k y z)) t).Width = t0.Width ∧
        ((List.range Nn).foldl (fun t3 z => t3.Set k y z (val k y z)) t).Depth = t0.Depth) :=
    fun y t k ht => foldlRange_inv _ _ (hIz k y) Nn t ht
  have hsz : ∀ (t : Tensor3) (k : ℕ), k < Nn → k ≠ z0 →
      (t.Width = t0.Width ∧ t.Depth = t0.Depth) →
      (t.Set x0 y0 k (val x0 y0 k)).Get x0 y0 z0 = t.Get x0 y0 z0 := by
    intro t k hk hne ht
    exact Tensor3.Get_Set_of_ne t _ (ht.1 ▸ Nat.lt_of_lt_of_le hx hWle)
      (ht.2 ▸ Nat.lt_of_lt_of_le hz hNle) (ht.1 ▸ Nat.lt_of_lt_of_le hx hWle)
      (ht.2 ▸ Nat.lt_of_lt_of_le hk hNle) (fun hc => hne hc.2.2.symm)
  have hwx : ∀ (t : Tensor3),
      (t.Width = t0.Width ∧ t.Depth = t0.Depth) →
      ((List.range Nn).foldl (fun t3 z => t3.Set x0 y0 z (val x0 y0 z)) t).Get x0 y0 z0
        = val x0 y0 z0 := by
    intro t ht
    exact foldlRange_write _ _ (fun t => t.Get x0 y0 z0) (val x0 y0 z0)
      (hIz x0 y0) Nn z0 hz (fun t2 _ => Tensor3.Get_Set_same t2 x0 y0 z0 _) hsz t ht
  have hsx : ∀ (t : Tensor3) (k : ℕ), k < Wn → k ≠ x0 →
      (t.Width = t0.Width ∧ t.Depth = t0.Depth) →
      ((List.range Nn).foldl (fun t3 z => t3.Set k y0 z (val k y0 z)) t).Get x0 y0 z0
        = t.Get x0 y0 z0 := by
    intro t k hk hne ht
    refine foldlRange_keep _ _ (fun t => t.Get x0 y0 z0) (hIz k y0) Nn ?_ t ht
    intro t2 z hzn ht2
    exact Tensor3.Get_Set_of_ne t2 _ (ht2.1 ▸ Nat.lt_of_lt_of_le hx hWle)
      (ht2.2 ▸ Nat.lt_of_lt_of_le hz hNle) (ht2.1 ▸ Nat.lt_of_lt_of_le hk hWle)
      (ht2.2 ▸ Nat.lt_of_lt_of_le hzn hNle) (fun hc => hne hc.1.symm)
  have hwy : ∀ (t : Tensor3),
      (t.Width = t0.Width ∧ t.Depth = t0.Depth) →
      ((List.range Wn).foldl (fun t2 x => (List.range Nn).foldl
          (fun t3 z => t3.Set x y0 z (val x y0 z)) t2) t).Get x0 y0 z0
        = val x0 y0 z0 := by
    intro t ht
    exact foldlRange_write _ _ (fun t => t.Get x0 y0 z0) (val x0 y0 z0)
      (hIx y0) Wn x0 hx hwx hsx t ht
  have hsy : ∀ (t : Tensor3) (k : ℕ), k < Hn → k ≠ y0 →
      (t.Width = t0.Width ∧ t.Depth = t0.Depth) →
      ((List.range Wn).foldl (fun t2 x => (List.range Nn).foldl
          (fun t3 z => t3.Set x k z (val x k z)) t2) t).Get x0 y0 z0
        = t.Get x0 y0 z0 := by
    intro t k hk hne ht
    refine foldlRange_keep _ _ (fun t => t.Get x0 y0 z0) (hIx k) Wn ?_ t ht
    intro t2 x hxn ht2
    refine foldlRange_keep _ _ (fun t => t.Get x0 y0 z0) (hIz x k) Nn ?_ t2 ht2
    intro t3 z hzn ht3
    exact Tensor3.Get_Set_of_ne t3 _ (ht3.1 ▸ Nat.lt_of_lt_of_le hx hWle)
      (ht3.2 ▸ Nat.lt_of_lt_of_le hz hNle) (ht3.1 ▸ Nat.lt_of_lt_of_le hxn hWle)
      (ht3.2 ▸ Nat.lt_of_lt_of_le hzn hNle) (fun hc => hne hc.2.1.symm)
  have hIy : ∀ (t : Tensor3) (k : ℕ),
      (t.Width = t0.Width ∧ t.Depth = t0.Depth) →
      (((List.range Wn).foldl (fun t2 x => (List.range Nn).foldl
          (fun t3 z => t3.Set x k z (val x k z)) t2) t).Width = t0.Width ∧
        ((List.range Wn).foldl (fun t2 x => (List.range Nn).foldl
          (fun t3 z => t3.Set x k z (val x k z)) t2) t).Depth = t0.Depth) := by
    intro t k ht
    exact foldlRange_inv
      (fun t2 x => (List.range Nn).foldl (fun t3 z => t3.Set x k z (val x k z)) t2)
      (fun t => t.Width = t0.Width ∧ t.Depth = t0.Depth)
      (fun t2 x ht2 => hIx k t2 x ht2) Wn t ht
  exact foldlRange_write
    (fun t1 y => (List.range Wn).foldl (fun t2 x =>
      (List.range Nn).foldl (fun t3 z => t3.Set x y z (val x y z)) t2) t1)
    (fun t => t.Width = t0.Width ∧ t.Depth = t0.Depth)
    (fun t => t.Get x0 y0 z0) (val x0 y0 z0)
    (fun t y ht => hIy t y ht) Hn y0 hy hwy hsy t0 ⟨rfl, rfl⟩

end NN

namespace NN

theorem ConvLayer.convolve_foldl (c : ConvLayer) (input : Vec) :
    c.convolve input =
      (List.range c.OutputHeight.toNat).foldl (fun t1 y =>
        (List.range c.OutputWidth.toNat).foldl (fun t2 x =>
          (List.range c.filtersL.length).foldl (fun t3 z =>
            t3.Set x y z
              (blas64Dot (c.filtersL.getD z (NewTensor3 0 0 0)).Size
                  (c.filtersL.getD z (NewTensor3 0 0 0)).Data
                  ((c.inputToTensor input).Crop (x * c.strideN) (y * c.strideN)
                    c.FilterWidth.toNat c.FilterHeight.toNat).Data
                + c.biasVec z)) t2) t1)
        (NewTensor3 c.OutputWidth.toNat c.OutputHeight.toNat c.OutputDepth.toNat) :=
  rfl

theorem ConvLayer.convolveR_foldl (c : ConvLayer) (v : RVector) (input inputR : Vec) :
    c.convolveR v input inputR =
      (List.range c.OutputHeight.toNat).foldl (fun t1 y =>
        (List.range c.OutputWidth.toNat).foldl (fun t2 x =>
          (List.range c.filtersL.length).foldl (fun t3 z =>
            t3.Set x y z
              (match v c.biasId with
               | none =>
                 match (c.filtersR v).getD z none with
                 | none =>
                   blas64Dot (c.filtersL.getD z (NewTensor3 0 0 0)).Size
                     (c.filtersL.getD z (NewTensor3 0 0 0)).Data
                     ((c.inputToTensor inputR).Crop (x * c.strideN) (y * c.strideN)
                       c.FilterWidth.toNat c.FilterHeight.toNat).Data
                 | some rfilter =>
                   blas64Dot (c.filtersL.getD z (NewTensor3 0 0 0)).Size
                     (c.filtersL.getD z (NewTensor3 0 0 0)).Data
                     ((c.inputToTensor inputR).Crop (x * c.strideN) (y * c.strideN)
                       c.FilterWidth.toNat c.FilterHeight.toNat).Data
                   + blas64Dot rfilter.Size rfilter.Data
                       ((c.inputToTensor input).Crop (x * c.strideN) (y * c.strideN)
                         c.FilterWidth.toNat c.FilterHeight.toNat).Data
               | some br =>
                 (match (c.filtersR v).getD z none with
                  | none =>
                    blas64Dot (c.filtersL.getD z (NewTensor3 0 0 0)).Size
                      (c.filtersL.getD z (NewTensor3 0 0 0)).Data
                      ((c.inputToTensor inputR).Crop (x * c.strideN) (y * c.strideN)
                        c.FilterWidth.toNat c.FilterHeight.toNat).Data
                  | some rfilter =>
                    blas64Dot (c.filtersL.getD z (NewTensor3 0 0 0)).Size
                      (c.filtersL.getD z (NewTensor3 0 0 0)).Data
                      ((c.inputToTensor inputR).Crop (x * c.strideN) (y * c.strideN)
                        c.FilterWidth.toNat c.FilterHeight.toNat).Data
                    + blas64Dot rfilter.Size rfilter.Data
                        ((c.inputToTensor input).Crop (x * c.strideN) (y * c.strideN)
                          c.FilterWidth.toNat c.FilterHeight.toNat).Data)
                 + br z)) t2) t1)
        (NewTensor3 c.OutputWidth.toNat c.OutputHeight.toNat c.OutputDepth.toNat) :=
  rfl

end NN

namespace NN

theorem MulAdd_neg_eq_crop_Axpy (fg inT : Tensor3) (ox oy : ℕ) (s : ℚ)
    (hW : 0 < fg.Width) (hD : 0 < fg.Depth)
    (hd : inT.Depth = fg.Depth)
    (hbx : ox + fg.Width ≤ inT.Width) (hby : oy + fg.Height ≤ inT.Height) :
    fg.MulAdd (-(ox : ℤ)) (-(oy : ℤ)) inT s
      = Tensor3.mk fg.Width fg.Height fg.Depth
          (blas64Axpy fg.Size s (inT.Crop ox oy fg.Width fg.Height).Data fg.Data) := by
  show Tensor3.mk fg.Width fg.Height fg.Depth _
      = Tensor3.mk fg.Width fg.Height fg.Depth _
  congr 1
  funext i
  simp only [Tensor3.MulAdd, blas64Axpy, Tensor3.Crop, Tensor3.Get]
  rw [hd]
  by_cases hi : i < fg.Size
  · have hdivlt : i / fg.Depth < fg.Width * fg.Height :=
      (Nat.div_lt_iff_lt_mul hD).mpr hi
    have hxlt : (i / fg.Depth) % fg.Width < fg.Width := Nat.mod_lt _ hW
    have hylt : i / fg.Depth / fg.Width < fg.Height := by
      refine (Nat.div_lt_iff_lt_mul hW).mpr ?_
      rw [Nat.mul_comm]
      exact hdivlt
    generalize hxg : (i / fg.Depth) % fg.Width = xN at hxlt ⊢
    generalize hyg : i / fg.Depth / fg.Width = yN at hylt ⊢
    rw [if_pos ⟨hylt, by omega, by omega, by omega, by omega⟩, if_pos hi]
    have htx : (((xN : ℕ) : ℤ) - -(ox : ℤ)).toNat = ox + xN := by omega
    have hty : (((yN : ℕ) : ℤ) - -(oy : ℤ)).toNat = oy + yN := by omega
    rw [htx, hty]
  · have hige : fg.Width * fg.Height ≤ i / fg.Depth :=
      (Nat.le_div_iff_mul_le hD).mpr (Nat.le_of_not_lt hi)
    have hyge : fg.Height ≤ i / fg.Depth / fg.Width := by
      refine (Nat.le_div_iff_mul_le hW).mpr ?_
      rw [Nat.mul_comm]
      exact hige
    rw [if_neg (fun hc => absurd hc.1 (Nat.not_lt.mpr hyge)), if_neg hi]

end NN

namespace NN

theorem mul_stride_add_le {S A B : ℤ} (hs : 0 < S) (hge : B ≤ A) (hB : 0 ≤ B)
    {x : ℕ} (hx : (x : ℤ) ≤ Int.tdiv (A - B) S) :
    x * S.toNat + B.toNat ≤ A.toNat := by
  have hDnn : (0 : ℤ) ≤ A - B := by omega
  have hSnn : (0 : ℤ) ≤ S := le_of_lt hs
  rw [Int.tdiv_eq_ediv hDnn hSnn] at hx
  have h1 : (x : ℤ) * S ≤ ((A - B) / S) * S := mul_le_mul_of_nonneg_right hx hSnn
  have h2 : ((A - B) / S) * S ≤ A - B := by
    have h3 := Int.emod_add_ediv (A - B) S
    have h4 : 0 ≤ (A - B) % S := Int.emod_nonneg _ (ne_of_gt hs)
    have h5 : S * ((A - B) / S) ≤ A - B := by linarith
    linarith [mul_comm S ((A - B) / S)]
  have h6 : (x : ℤ) * S + B ≤ A := by linarith
  zify
  rw [Int.toNat_of_nonneg hSnn, Int.toNat_of_nonneg hB,
    Int.toNat_of_nonneg (le_trans hB hge)]
  linarith

theorem ConvLayer.pos_bound_w (c : ConvLayer) {x : ℕ} (hs : 0 < c.Stride)
    (hge : c.FilterWidth ≤ c.InputWidth) (hB : 0 ≤ c.FilterWidth)
    (hx : x < c.OutputWidth.toNat) :
    x * c.strideN + c.FilterWidth.toNat ≤ c.InputWidth.toNat := by
  refine mul_stride_add_le hs hge hB ?_
  simp only [ConvLayer.OutputWidth] at hx
  split at hx <;> omega

theorem ConvLayer.pos_bound_h (c : ConvLayer) {y : ℕ} (hs : 0 < c.Stride)
    (hge : c.FilterHeight ≤ c.InputHeight) (hB : 0 ≤ c.FilterHeight)
    (hy : y < c.OutputHeight.toNat) :
    y * c.strideN + c.FilterHeight.toNat ≤ c.InputHeight.toNat := by
  refine mul_stride_add_le hs hge hB ?_
  simp only [ConvLayer.OutputHeight] at hy
  split at hy <;> omega

/-- C2: for every valid ConvLayer configuration, every output position
(x,y) and every accumulator state of the filter gradient of any filter
index, the accumulation done by convLayerRResult.PropagateRGradient -
MulAdd with negative offsets (-x*Stride, -y*Stride) against the full
input tensor - produces exactly the same filter-gradient tensor as the
crop-then-scaled-add accumulation done by convLayerResult.
PropagateGradient on the input patch cropped at (x*Stride, y*Stride). -/
theorem claimC2_rgrad_muladd_matches_crop (c : ConvLayer) (gvec input : Vec)
    (s : ℚ) {x y : ℕ}
    (hs : 0 < c.Stride) (hfw : 0 < c.FilterWidth) (hfh : 0 < c.FilterHeight)
    (hdp : 0 < c.InputDepth)
    (hgw : c.FilterWidth ≤ c.InputWidth) (hgh : c.FilterHeight ≤ c.InputHeight)
    (hx : x < c.OutputWidth.toNat) (hy : y < c.OutputHeight.toNat) :
    rFilterGradStep (c.filterToTensor gvec) (x * c.strideN) (y * c.strideN)
        (c.inputToTensor input) s
      = pFilterGradStep (c.filterToTensor gvec)
          ((c.inputToTensor input).Crop (x * c.strideN) (y * c.strideN)
            c.FilterWidth.toNat c.FilterHeight.toNat) s := by
  have hbx := c.pos_bound_w hs hgw (le_of_lt hfw) hx
  have hby := c.pos_bound_h hs hgh (le_of_lt hfh) hy
  exact MulAdd_neg_eq_crop_Axpy (c.filterToTensor gvec) (c.inputToTensor input)
    (x * c.strideN) (y * c.strideN) s (by simp [ConvLayer.filterToTensor]; omega)
    (by simp [ConvLayer.filterToTensor]; omega) rfl hbx hby

/-- Witness for C2 at the concrete layer exLayerC, position (0,0), a
constant filter-gradient accumulator and the identity-valued input. -/
theorem claimC2_witness :
    ((0 : ℤ) < exLayerC.Stride ∧ 0 < exLayerC.FilterWidth
      ∧ 0 < exLayerC.FilterHeight ∧ 0 < exLayerC.InputDepth
      ∧ exLayerC.FilterWidth ≤ exLayerC.InputWidth
      ∧ exLayerC.FilterHeight ≤ exLayerC.InputHeight
      ∧ 0 < exLayerC.OutputWidth.toNat ∧ 0 < exLayerC.OutputHeight.toNat)
    ∧ rFilterGradStep (exLayerC.filterToTensor (fun _ => 1)) (0 * exLayerC.strideN)
        (0 * exLayerC.strideN) (exLayerC.inputToTensor (fun i => (i : ℚ))) 2
      = pFilterGradStep (exLayerC.filterToTensor (fun _ => 1))
          ((exLayerC.inputToTensor (fun i => (i : ℚ))).Crop (0 * exLayerC.strideN)
            (0 * exLayerC.strideN) exLayerC.FilterWidth.toNat
            exLayerC.FilterHeight.toNat) 2 :=
  ⟨⟨by decide, by decide, by decide, by decide, by decide, by decide, by decide,
    by decide⟩,
   claimC2_rgrad_muladd_matches_crop exLayerC (fun _ => 1) (fun i => (i : ℚ)) 2
     (by decide) (by decide) (by decide) (by decide) (by decide) (by decide)
     (by decide) (by decide)⟩

end NN

namespace NN

/-- C1 counterexample: on the layer with InputWidth 3, FilterWidth 4,
Stride 2 (positive stride), OutputWidth returns 1, while the claimed
formula max(0, 1+floor((W-Fw)/S)) gives 0: Go division truncates toward
zero, the claim floors. -/
theorem claimC1_counterexample :
    (0 : ℤ) < cexLayer.Stride
    ∧ cexLayer.OutputWidth = 1
    ∧ specOutputWidth cexLayer = 0
    ∧ cexLayer.OutputWidth ≠ specOutputWidth cexLayer := by
  refine ⟨by decide, by decide, by decide, by decide⟩

/-- C1 (amended): for every ConvLayer with positive stride, OutputWidth
returns max(0, 1 + trunc((W-Fw)/S)) where trunc is Go integer division
(truncation toward zero), and symmetrically for OutputHeight; this
agrees with the claimed floor formula whenever the filter fits inside
the input (Fw <= W, resp. Fh <= H). -/
theorem claimC1_output_shape (c : ConvLayer) (hs : 0 < c.Stride) :
    c.OutputWidth = max 0 (1 + Int.tdiv (c.InputWidth - c.FilterWidth) c.Stride)
    ∧ c.OutputHeight = max 0 (1 + Int.tdiv (c.InputHeight - c.FilterHeight) c.Stride)
    ∧ (c.FilterWidth ≤ c.InputWidth → c.OutputWidth = specOutputWidth c)
    ∧ (c.FilterHeight ≤ c.InputHeight → c.OutputHeight = specOutputHeight c) := by
  refine ⟨?_, ?_, ?_, ?_⟩
  · simp only [ConvLayer.OutputWidth]
    split <;> omega
  · simp only [ConvLayer.OutputHeight]
    split <;> omega
  · intro hge
    have hnn : (0 : ℤ) ≤ c.InputWidth - c.FilterWidth := by omega
    simp only [ConvLayer.OutputWidth, specOutputWidth,
      Int.tdiv_eq_ediv hnn (le_of_lt hs), Int.fdiv_eq_ediv _ (le_of_lt hs)]
    split <;> omega
  · intro hge
    have hnn : (0 : ℤ) ≤ c.InputHeight - c.FilterHeight := by omega
    simp only [ConvLayer.OutputHeight, specOutputHeight,
      Int.tdiv_eq_ediv hnn (le_of_lt hs), Int.fdiv_eq_ediv _ (le_of_lt hs)]
    split <;> omega

/-- Witness for the amended C1 on the spec's two examples: W=5, Fw=3,
S=1 gives output width 3, and W=2, Fw=3, S=1 gives output width 0. -/
theorem claimC1_witness :
    ((0 : ℤ) < exLayerA.Stride
      ∧ exLayerA.OutputWidth
          = max 0 (1 + Int.tdiv (exLayerA.InputWidth - exLayerA.FilterWidth)
              exLayerA.Stride)
      ∧ exLayerA.OutputHeight
          = max 0 (1 + Int.tdiv (exLayerA.InputHeight - exLayerA.FilterHeight)
              exLayerA.Stride)
      ∧ (exLayerA.FilterWidth ≤ exLayerA.InputWidth →
          exLayerA.OutputWidth = specOutputWidth exLayerA)
      ∧ (exLayerA.FilterHeight ≤ exLayerA.InputHeight →
          exLayerA.OutputHeight = specOutputHeight exLayerA))
    ∧ exLayerA.OutputWidth = 3 ∧ exLayerB.OutputWidth = 0 :=
  ⟨⟨by decide, (claimC1_output_shape exLayerA (by decide)).1,
    (claimC1_output_shape exLayerA (by decide)).2.1,
    (claimC1_output_shape exLayerA (by decide)).2.2.1,
    (claimC1_output_shape exLayerA (by decide)).2.2.2⟩,
   by decide, by decide⟩

end NN

namespace RT

theorem pairMismatch_false_iff (prec : ℚ) (x y : F64) :
    pairMismatch prec x y = false ↔
      ((x = F64.nan ∧ y = F64.nan)
        ∨ ∃ a c, x = F64.val a ∧ y = F64.val c ∧ |a - c| ≤ prec) := by
  cases x with
  | nan =>
    cases y with
    | nan => simp [pairMismatch, F64.IsNaN, F64.sub, F64.Abs, F64.gtQ]
    | val c => simp [pairMismatch, F64.IsNaN, F64.sub, F64.Abs, F64.gtQ]
  | val a =>
    cases y with
    | nan => simp [pairMismatch, F64.IsNaN, F64.sub, F64.Abs, F64.gtQ]
    | val c =>
      simp only [pairMismatch, F64.IsNaN, F64.sub, F64.Abs, F64.gtQ, bne_self_eq_false,
        Bool.false_or, decide_eq_false_iff_not, not_lt, F64.val.injEq, reduceCtorEq,
        false_and, false_or]
      constructor
      · intro h
        exact ⟨a, c, rfl, rfl, h⟩
      · rintro ⟨a2, c2, ha, hc, h⟩
        rw [ha, hc]
        exact h

theorem vecsEqualAt_iff (prec : ℚ) : ∀ (v1 v2 : List F64),
    vecsEqualAt prec v1 v2 = true ↔
      (v1.length = v2.length ∧ ∀ i, i < v1.length →
        ((v1.getD i F64.nan = F64.nan ∧ v2.getD i F64.nan = F64.nan)
          ∨ ∃ a c, v1.getD i F64.nan = F64.val a ∧ v2.getD i F64.nan = F64.val c
              ∧ |a - c| ≤ prec)) := by
  intro v1
  induction v1 with
  | nil =>
    intro v2
    cases v2 with
    | nil => simp [vecsEqualAt]
    | cons b t2 => simp [vecsEqualAt]
  | cons a t ih =>
    intro v2
    cases v2 with
    | nil => simp [vecsEqualAt]
    | cons b t2 =>
      simp only [vecsEqualAt, List.length_cons, List.zip_cons_cons, List.all_cons,
        Bool.and_eq_true, beq_iff_eq, Bool.not_eq_true', Nat.succ.injEq]
      constructor
      · rintro ⟨hlen, hpair, hall⟩
        have hrest : vecsEqualAt prec t t2 = true := by
          simp only [vecsEqualAt, Bool.and_eq_true, beq_iff_eq]
          exact ⟨hlen, hall⟩
        have hih := (ih t2).mp hrest
        refine ⟨hlen, ?_⟩
        intro i hi
        cases i with
        | zero =>
          simpa using (pairMismatch_false_iff prec a b).mp hpair
        | succ j =>
          have hj : j < t.length := by simpa using hi
          simpa using hih.2 j hj
      · rintro ⟨hlen, hall⟩
        have hpair : pairMismatch prec a b = false := by
          refine (pairMismatch_false_iff prec a b).mpr ?_
          simpa using hall 0 (Nat.succ_pos _)
        have hrest : vecsEqualAt prec t t2 = true := by
          refine (ih t2).mpr ⟨hlen, ?_⟩
          intro j hj
          simpa using hall (j + 1) (by simpa using hj)
        simp only [vecsEqualAt, Bool.and_eq_true, beq_iff_eq] at hrest
        exact ⟨hlen, hpair, hrest.2⟩

/-- C6: BlockChecker.vecsEqual returns true exactly when the two vectors
have equal length and, at every index, either both values are NaN, or
neither is and their absolute difference is at most the comparison
tolerance; two NaN values compare equal, and NaN never compares equal to
a finite value. -/
theorem claimC6_vecsEqual_iff (b : BlockChecker) (v1 v2 : List F64) :
    b.vecsEqual v1 v2 = true ↔
      (v1.length = v2.length ∧ ∀ i, i < v1.length →
        ((v1.getD i F64.nan = F64.nan ∧ v2.getD i F64.nan = F64.nan)
          ∨ ∃ a c, v1.getD i F64.nan = F64.val a ∧ v2.getD i F64.nan = F64.val c
              ∧ |a - c| ≤ b.prec)) :=
  vecsEqualAt_iff b.prec v1 v2

end RT

namespace NN

/-- C8: Parameters, Apply and ApplyR each fail with the uninitialized-use
panic (modelled as none) exactly when Filters, Biases or FilterVars is
nil; when all three are allocated, none of the three operations fails on
that check. -/
theorem claimC8_uninitialized_panics (c : ConvLayer) (inId : ℕ) (inOut : Vec)
    (v : RVector) (inROut : Vec) :
    (c.Parameters = none
        ↔ (c.Filters = none ∨ c.Biases = none ∨ c.FilterVars = none))
    ∧ (c.Apply inId inOut = none
        ↔ (c.Filters = none ∨ c.Biases = none ∨ c.FilterVars = none))
    ∧ (c.ApplyR v inId inOut inROut = none
        ↔ (c.Filters = none ∨ c.Biases = none ∨ c.FilterVars = none)) := by
  unfold ConvLayer.Parameters ConvLayer.Apply ConvLayer.ApplyR
  refine ⟨?_, ?_, ?_⟩ <;> split <;> rename_i h <;>
    simp_all [Option.isNone_iff_eq_none]

/-- C10: on an initialized layer, Parameters returns the list whose head
is the bias variable and whose entry i+1 is filter variable i, of length
one more than the number of filter variables; the call is pure, so the
layer itself is unchanged. -/
theorem claimC10_parameters_layout (c : ConvLayer) (fs : List Tensor3)
    (fv : List Variable) (bv : Variable)
    (h1 : c.Filters = some fs) (h2 : c.FilterVars = some fv)
    (h3 : c.Biases = some bv) :
    c.Parameters = some (bv :: fv)
    ∧ (bv :: fv).length = fv.length + 1
    ∧ (bv :: fv).getD 0 ⟨0, zeroVec⟩ = bv
    ∧ ∀ i, i < fv.length →
        (bv :: fv).getD (i + 1) ⟨0, zeroVec⟩ = fv.getD i ⟨0, zeroVec⟩ := by
  refine ⟨?_, rfl, List.getD_cons_zero, fun i hi => List.getD_cons_succ⟩
  unfold ConvLayer.Parameters
  rw [if_neg]
  · simp [ConvLayer.filterVarsL, h2, h3]
  · simp [h1, h2, h3]

/-- Witness for C10 at the initialized concrete layer exLayerC. -/
theorem claimC10_witness :
    (exLayerC.Filters = some [⟨1, 1, 1, fun _ => 2⟩]
      ∧ exLayerC.FilterVars = some [⟨1, fun _ => 2⟩]
      ∧ exLayerC.Biases = some ⟨0, fun _ => 3⟩)
    ∧ exLayerC.Parameters = some (⟨0, fun _ => 3⟩ :: [⟨1, fun _ => 2⟩]) :=
  ⟨⟨rfl, rfl, rfl⟩,
   (claimC10_parameters_layout exLayerC [⟨1, 1, 1, fun _ => 2⟩] [⟨1, fun _ => 2⟩]
     ⟨0, fun _ => 3⟩ rfl rfl rfl).1⟩

/-- C9: after deserialization, the reconstructed FilterVars list holds
exactly one Variable per persisted filter, in order, and the Variable at
position i carries the same backing vector as filter i's data. -/
theorem claimC9_deserialize_filtervars (c : ConvLayer) (freshIds : ℕ → ℕ)
    (hfv : c.FilterVars = none) :
    (DeserializeConvLayer c freshIds).filterVarsL.length = c.filtersL.length
    ∧ ∀ i, i < c.filtersL.length →
        ((DeserializeConvLayer c freshIds).filterVarsL.getD i ⟨0, zeroVec⟩).Vector
          = (c.filtersL.getD i (NewTensor3 0 0 0)).Data := by
  by_cases hemp : c.filtersL.isEmpty
  · have hnil : c.filtersL = [] := List.isEmpty_iff.mp hemp
    constructor
    · simp [DeserializeConvLayer, hemp, hnil, ConvLayer.filterVarsL, hfv]
    · intro i hi
      rw [hnil] at hi
      exact absurd hi (by simp)
  · constructor
    · simp [DeserializeConvLayer, hemp, ConvLayer.filterVarsL, hfv, List.enum_length]
    · intro i hi
      have hlen : i < ((c.FilterVars.getD [] ++ c.filtersL.enum.map
          fun p => (⟨freshIds p.1, p.2.Data⟩ : Variable)).length) := by
        simp [hfv, List.enum_length, hi]
      simp only [DeserializeConvLayer]
      rw [if_neg hemp]
      simp only [ConvLayer.filterVarsL, Option.getD_some]
      rw [List.getD_eq_getElem _ _ hlen, List.getD_eq_getElem _ _ hi]
      simp only [hfv, Option.getD_none, List.nil_append]
      rw [List.getElem_map, List.getElem_enum]

end NN

namespace NN

/-- Witness for C9: deserializing the concrete unmarshalled layer
exLayerD (FilterVars nil) rebuilds one filter variable per filter. -/
theorem claimC9_witness :
    exLayerD.FilterVars = none
    ∧ (DeserializeConvLayer exLayerD (fun i => i + 10)).filterVarsL.length
        = exLayerD.filtersL.length :=
  ⟨rfl, (claimC9_deserialize_filtervars exLayerD (fun i => i + 10) rfl).1⟩

theorem Grad.update_isSome (g : Grad) (v : ℕ) (f : Vec → Vec) (w : ℕ) :
    ((g.update v f) w).isSome = (g w).isSome := by
  unfold Grad.update
  split
  · rename_i h
    subst h
    cases g w <;> rfl
  · rfl

theorem PropagateGradient_isSome (r : convLayerResult) (up : Vec) (g : Grad)
    (w : ℕ) : ((r.PropagateGradient up g) w).isSome = (g w).isSome := by
  have hupd : ∀ (gr : Grad) (v : ℕ) (f : Vec → Vec),
      ((gr.update v f) w).isSome = (gr w).isSome :=
    fun gr v f => Grad.update_isSome gr v f w
  simp only [convLayerResult.PropagateGradient]
  split
  · refine foldlRange_pres _ (fun gr => (gr w).isSome = (g w).isSome) ?_ _ g rfl
    intro g1 y h1
    refine foldlRange_pres _ (fun gr => (gr w).isSome = (g w).isSome) ?_ _ g1 h1
    intro g2 x h2
    refine foldlRange_pres _ (fun gr => (gr w).isSome = (g w).isSome) ?_ _ g2 h2
    intro g3 z h3
    rw [hupd, hupd]
    exact h3
  · rw [hupd]
    refine foldlRange_pres _ (fun gr => (gr w).isSome = (g w).isSome) ?_ _ g rfl
    intro g1 y h1
    refine foldlRange_pres _ (fun gr => (gr w).isSome = (g w).isSome) ?_ _ g1 h1
    intro g2 x h2
    refine foldlRange_pres _ (fun gr => (gr w).isSome = (g w).isSome) ?_ _ g2 h2
    intro g3 z h3
    rw [hupd, hupd]
    exact h3

theorem foldl3_pres {α : Type _} (f3 : α → ℕ → ℕ → ℕ → α) (P : α → Prop)
    (hstep : ∀ t x y z, P t → P (f3 t x y z)) (Hn Wn Nn : ℕ) (t0 : α)
    (h0 : P t0) :
    P ((List.range Hn).foldl (fun t1 y => (List.range Wn).foldl (fun t2 x =>
      (List.range Nn).foldl (fun t3 z => f3 t3 x y z) t2) t1) t0) := by
  refine foldlRange_pres _ P ?_ Hn t0 h0
  intro t y ht
  refine foldlRange_pres _ P ?_ Wn t ht
  intro t2 x ht2
  refine foldlRange_pres _ P ?_ Nn t2 ht2
  intro t3 z ht3
  exact hstep t3 x y z ht3

theorem accumGrads_isSome (r : convLayerRResult) (up upR : Vec)
    (p0 : Grad × Grad) (w : ℕ) :
    ((r.accumGrads up upR p0).1 w).isSome = (p0.1 w).isSome
    ∧ ((r.accumGrads up upR p0).2 w).isSome = (p0.2 w).isSome := by
  have hupd : ∀ (gr : Grad) (v : ℕ) (f : Vec → Vec),
      ((gr.update v f) w).isSome = (gr w).isSome :=
    fun gr v f => Grad.update_isSome gr v f w
  have hstep : ∀ (p : Grad × Grad) (x y z : ℕ),
      ((p.1 w).isSome = (p0.1 w).isSome ∧ (p.2 w).isSome = (p0.2 w).isSome) →
      (((r.stepSite up upR p x y z).1 w).isSome = (p0.1 w).isSome
        ∧ ((r.stepSite up upR p x y z).2 w).isSome = (p0.2 w).isSome) := by
    intro p x y z hp
    simp only [convLayerRResult.stepSite]
    rw [hupd, hupd, hupd, hupd]
    exact hp
  simp only [convLayerRResult.accumGrads]
  exact foldl3_pres (r.stepSite up upR)
    (fun p => ((p.1 w).isSome = (p0.1 w).isSome
      ∧ (p.2 w).isSome = (p0.2 w).isSome)) hstep _ _ _ _ ⟨rfl, rfl⟩

theorem PropagateRGradient_isSome (r : convLayerRResult) (up upR : Vec)
    (rg g : Grad) (w : ℕ) :
    ((r.PropagateRGradient up upR rg g).1 w).isSome = (rg w).isSome
    ∧ ((r.PropagateRGradient up upR rg g).2 w).isSome = (g w).isSome := by
  have hupd : ∀ (gr : Grad) (v : ℕ) (f : Vec → Vec),
      ((gr.update v f) w).isSome = (gr w).isSome :=
    fun gr v f => Grad.update_isSome gr v f w
  have hacc := accumGrads_isSome r up upR (rg, g) w
  simp only [convLayerRResult.PropagateRGradient]
  split
  · exact hacc
  · constructor
    · rw [hupd]
      exact hacc.1
    · rw [hupd]
      exact hacc.2

/-- C7: propagation never grows or shrinks the Gradient or RGradient key
set: for every variable identity, trackedness (presence of its entry) is
unchanged by convLayerResult.PropagateGradient and by
convLayerRResult.PropagateRGradient, for every mapping including the nil
one; an absent key stays a silent no-op and a present key stays present
(pure in-place accumulation). -/
theorem claimC7_propagate_preserves_keys :
    (∀ (r : convLayerResult) (up : Vec) (g : Grad) (w : ℕ),
      ((r.PropagateGradient up g) w).isSome = (g w).isSome)
    ∧ (∀ (rr : convLayerRResult) (up upR : Vec) (rg g : Grad) (w : ℕ),
      ((rr.PropagateRGradient up upR rg g).1 w).isSome = (rg w).isSome
      ∧ ((rr.PropagateRGradient up upR rg g).2 w).isSome = (g w).isSome) :=
  ⟨PropagateGradient_isSome, PropagateRGradient_isSome⟩

end NN

namespace NN

/-- C5: the forward convolution output tensor has dimensions
OutputWidth x OutputHeight x FilterCount, and its entry at output
position (x,y) and filter z is the dot product of the input patch
cropped at (x*Stride, y*Stride) with filter z, plus bias z. -/
theorem claimC5_convolve_forward (c : ConvLayer) (input : Vec) {x y z : ℕ}
    (hfc : c.filtersL.length = c.FilterCount.toNat)
    (hx : x < c.OutputWidth.toNat) (hy : y < c.OutputHeight.toNat)
    (hz : z < c.filtersL.length) :
    (c.convolve input).Width = c.OutputWidth.toNat
    ∧ (c.convolve input).Height = c.OutputHeight.toNat
    ∧ (c.convolve input).Depth = c.FilterCount.toNat
    ∧ (c.convolve input).Get x y z
        = blas64Dot (c.filtersL.getD z (NewTensor3 0 0 0)).Size
            (c.filtersL.getD z (NewTensor3 0 0 0)).Data
            ((c.inputToTensor input).Crop (x * c.strideN) (y * c.strideN)
              c.FilterWidth.toNat c.FilterHeight.toNat).Data
          + c.biasVec z := by
  rw [ConvLayer.convolve_foldl]
  have hdims := foldl3_Set_dims c.OutputWidth.toNat c.OutputHeight.toNat
    c.filtersL.length
    (fun x y z =>
      blas64Dot (c.filtersL.getD z (NewTensor3 0 0 0)).Size
        (c.filtersL.getD z (NewTensor3 0 0 0)).Data
        ((c.inputToTensor input).Crop (x * c.strideN) (y * c.strideN)
          c.FilterWidth.toNat c.FilterHeight.toNat).Data
      + c.biasVec z)
    (NewTensor3 c.OutputWidth.toNat c.OutputHeight.toNat c.OutputDepth.toNat)
  refine ⟨hdims.1, hdims.2.1, hdims.2.2, ?_⟩
  exact foldl3_Set_Get c.OutputWidth.toNat c.OutputHeight.toNat
    c.filtersL.length
    (fun x y z =>
      blas64Dot (c.filtersL.getD z (NewTensor3 0 0 0)).Size
        (c.filtersL.getD z (NewTensor3 0 0 0)).Data
        ((c.inputToTensor input).Crop (x * c.strideN) (y * c.strideN)
          c.FilterWidth.toNat c.FilterHeight.toNat).Data
      + c.biasVec z)
    (NewTensor3 c.OutputWidth.toNat c.OutputHeight.toNat c.OutputDepth.toNat)
    (le_refl _) (le_of_eq hfc) hx hy hz

/-- Witness for C5 at the concrete layer exLayerC and position (0,0,0). -/
theorem claimC5_witness :
    (exLayerC.filtersL.length = exLayerC.FilterCount.toNat
      ∧ 0 < exLayerC.OutputWidth.toNat ∧ 0 < exLayerC.OutputHeight.toNat
      ∧ 0 < exLayerC.filtersL.length)
    ∧ (exLayerC.convolve (fun i => (i : ℚ))).Width = exLayerC.OutputWidth.toNat :=
  ⟨⟨by decide, by decide, by decide, by decide⟩,
   (@claimC5_convolve_forward exLayerC (fun i => (i : ℚ)) 0 0 0 (by decide)
     (by decide) (by decide) (by decide)).1⟩

end NN

namespace NN

/-- C4: through ApplyR the dual output tensor is convolveR, and the dual
output at position (x,y) and filter z obeys the product rule: the dot
product of filter z with the cropped R-input patch, plus the dot product
of filter z's R-direction with the cropped primal patch when that
direction exists (zero otherwise), plus the bias R-direction at z when
it exists (zero otherwise). -/
theorem claimC4_convolveR_product_rule (c : ConvLayer) (v : RVector)
    (inId : ℕ) (input inputR : Vec) (x y z : ℕ)
    (h1 : c.Filters ≠ none) (h2 : c.Biases ≠ none) (h3 : c.FilterVars ≠ none)
    (hfc : c.filtersL.length = c.FilterCount.toNat)
    (hx : x < c.OutputWidth.toNat) (hy : y < c.OutputHeight.toNat)
    (hz : z < c.filtersL.length) :
    (c.ApplyR v inId input inputR).map convLayerRResult.ROutputTensor
        = some (c.convolveR v input inputR)
    ∧ (c.convolveR v input inputR).Get x y z
        = blas64Dot (c.filtersL.getD z (NewTensor3 0 0 0)).Size
            (c.filtersL.getD z (NewTensor3 0 0 0)).Data
            ((c.inputToTensor inputR).Crop (x * c.strideN) (y * c.strideN)
              c.FilterWidth.toNat c.FilterHeight.toNat).Data
          + (match (c.filtersR v).getD z none with
             | none => 0
             | some rfilter => blas64Dot rfilter.Size rfilter.Data
                 ((c.inputToTensor input).Crop (x * c.strideN) (y * c.strideN)
                   c.FilterWidth.toNat c.FilterHeight.toNat).Data)
          + (match v c.biasId with
             | none => 0
             | some br => br z) := by
  constructor
  · unfold ConvLayer.ApplyR
    rw [if_neg]
    · rfl
    · simp [Option.isNone_iff_eq_none, h1, h2, h3]
  · rw [ConvLayer.convolveR_foldl]
    rw [foldl3_Set_Get c.OutputWidth.toNat c.OutputHeight.toNat
      c.filtersL.length
      (fun x y z =>
        (match v c.biasId with
         | none =>
           match (c.filtersR v).getD z none with
           | none =>
             blas64Dot (c.filtersL.getD z (NewTensor3 0 0 0)).Size
               (c.filtersL.getD z (NewTensor3 0 0 0)).Data
               ((c.inputToTensor inputR).Crop (x * c.strideN) (y * c.strideN)
                 c.FilterWidth.toNat c.FilterHeight.toNat).Data
           | some rfilter =>
             blas64Dot (c.filtersL.getD z (NewTensor3 0 0 0)).Size
               (c.filtersL.getD z (NewTensor3 0 0 0)).Data
               ((c.inputToTensor inputR).Crop (x * c.strideN) (y * c.strideN)
                 c.FilterWidth.toNat c.FilterHeight.toNat).Data
             + blas64Dot rfilter.Size rfilter.Data
                 ((c.inputToTensor input).Crop (x * c.strideN) (y * c.strideN)
                   c.FilterWidth.toNat c.FilterHeight.toNat).Data
         | some br =>
           (match (c.filtersR v).getD z none with
            | none =>
              blas64Dot (c.filtersL.getD z (NewTensor3 0 0 0)).Size
                (c.filtersL.getD z (NewTensor3 0 0 0)).Data
                ((c.inputToTensor inputR).Crop (x * c.strideN) (y * c.strideN)
                  c.FilterWidth.toNat c.FilterHeight.toNat).Data
            | some rfilter =>
              blas64Dot (c.filtersL.getD z (NewTensor3 0 0 0)).Size
                (c.filtersL.getD z (NewTensor3 0 0 0)).Data
                ((c.inputToTensor inputR).Crop (x * c.strideN) (y * c.strideN)
                  c.FilterWidth.toNat c.FilterHeight.toNat).Data
              + blas64Dot rfilter.Size rfilter.Data
                  ((c.inputToTensor input).Crop (x * c.strideN) (y * c.strideN)
                    c.FilterWidth.toNat c.FilterHeight.toNat).Data)
           + br z))
      (NewTensor3 c.OutputWidth.toNat c.OutputHeight.toNat c.OutputDepth.toNat)
      (le_refl _) (le_of_eq hfc) hx hy hz]
    rcases hbR : v c.biasId with _ | br <;>
      rcases hfR : (c.filtersR v).getD z none with _ | rfilter <;>
      simp [hbR, hfR]

/-- Witness for C4 at the concrete layer exLayerC with the concrete
direction mapping exRV, at position (0,0,0). -/
theorem claimC4_witness :
    (exLayerC.Filters ≠ none ∧ exLayerC.Biases ≠ none
      ∧ exLayerC.FilterVars ≠ none
      ∧ exLayerC.filtersL.length = exLayerC.FilterCount.toNat
      ∧ 0 < exLayerC.OutputWidth.toNat ∧ 0 < exLayerC.OutputHeight.toNat
      ∧ 0 < exLayerC.filtersL.length)
    ∧ (exLayerC.ApplyR exRV 5 (fun i => (i : ℚ)) (fun _ => 1)).map
        convLayerRResult.ROutputTensor
        = some (exLayerC.convolveR exRV (fun i => (i : ℚ)) (fun _ => 1)) :=
  ⟨⟨by simp [exLayerC], by simp [exLayerC], by simp [exLayerC], by decide,
    by decide, by decide, by decide⟩,
   (claimC4_convolveR_product_rule exLayerC exRV 5 (fun i => (i : ℚ)) (fun _ => 1)
     0 0 0 (by simp [exLayerC]) (by simp [exLayerC]) (by simp [exLayerC])
     (by decide) (by decide) (by decide) (by decide)).1⟩

end NN

namespace RT

/-- C3: the single-step nil-upstream subtests of FullCheck report a test
failure exactly when (a) some tracked variable's accumulator from the
all-nil-upstream propagation differs under vecsEqual from the
accumulator of the explicit all-zero-upstream propagation - on the plain
path or, for the dual path, on either the Gradient or the RGradient
mapping - or (b) some run changed the number of entries of its Gradient
or RGradient mapping. -/
theorem claimC3_nil_upstream_subtests_iff (b : BlockChecker) :
    b.nilUpstreamSubtests = true ↔
      ((∃ vr ∈ b.Vars,
          b.vecsEqual (b.nilRun.getVec vr.id) (b.zeroRun.getVec vr.id) = false
          ∨ b.vecsEqual (b.nilRunR.2.getVec vr.id) (b.zeroRunR.2.getVec vr.id) = false
          ∨ b.vecsEqual (b.nilRunR.1.getVec vr.id) (b.zeroRunR.1.getVec vr.id) = false)
        ∨ (b.nilRun.entries ≠ (newGradient b.Vars).entries
          ∨ b.zeroRun.entries ≠ (newGradient b.Vars).entries
          ∨ b.nilRunR.2.entries ≠ (newGradient b.Vars).entries
          ∨ b.nilRunR.1.entries ≠ (newGradient b.Vars).entries
          ∨ b.zeroRunR.2.entries ≠ (newGradient b.Vars).entries
          ∨ b.zeroRunR.1.entries ≠ (newGradient b.Vars).entries)) := by
  simp only [BlockChecker.nilUpstreamSubtests, BlockChecker.testNilUpstream,
    BlockChecker.testNilUpstreamR, BlockChecker.nilRun, BlockChecker.zeroRun,
    BlockChecker.nilRunR, BlockChecker.zeroRunR, Bool.or_eq_true, bne_iff_ne,
    ne_eq, List.any_eq_true, Bool.not_eq_true']
  constructor
  · rintro (((h | h) | ⟨v, hv, hp⟩) | ((((h | h) | h) | h) | ⟨v, hv, hq | hs⟩))
    · exact Or.inr (Or.inl h)
    · exact Or.inr (Or.inr (Or.inl h))
    · exact Or.inl ⟨v, hv, Or.inl hp⟩
    · exact Or.inr (Or.inr (Or.inr (Or.inl h)))
    · exact Or.inr (Or.inr (Or.inr (Or.inr (Or.inl h))))
    · exact Or.inr (Or.inr (Or.inr (Or.inr (Or.inr (Or.inl h)))))
    · exact Or.inr (Or.inr (Or.inr (Or.inr (Or.inr (Or.inr h)))))
    · exact Or.inl ⟨v, hv, Or.inr (Or.inl hq)⟩
    · exact Or.inl ⟨v, hv, Or.inr (Or.inr hs)⟩
  · rintro (⟨v, hv, hp | hq | hs⟩ | (h | h | h | h | h | h))
    · exact Or.inl (Or.inr ⟨v, hv, hp⟩)
    · exact Or.inr (Or.inr ⟨v, hv, Or.inl hq⟩)
    · exact Or.inr (Or.inr ⟨v, hv, Or.inr hs⟩)
    · exact Or.inl (Or.inl (Or.inl h))
    · exact Or.inl (Or.inl (Or.inr h))
    · exact Or.inr (Or.inl (Or.inl (Or.inl (Or.inl h))))
    · exact Or.inr (Or.inl (Or.inl (Or.inl (Or.inr h))))
    · exact Or.inr (Or.inl (Or.inl (Or.inr h)))
    · exact Or.inr (Or.inl (Or.inr h))

end RT
